import Mathlib

/-!
Shallow embedding of the two serverless request handlers of the
mgis-business-intelligence-dashboard repository:

* `api/stocks.js` — the multi-industry stock price aggregator
  (`stocksHandler` below, with `INDUSTRIES` the compiled-in configuration),
* the earnings-call transcript fetcher endpoint (`earningsHandler` below).

The network is modelled as an oracle assigning to each ticker the outcome of
its outbound lookup (`FetchOutcome`): either a parsed payload or the message
of the thrown error.  Each handler returns the HTTP response it would send
together with the list of tickers for which it issued an outbound call, in
dispatch order.  The handlers are parameterised by the request method, the
`API_KEY` environment value (`none` when absent), the configuration (for the
stocks endpoint) and the current timestamp string.
-/

namespace BIDash

/-- A tracked company from the `INDUSTRIES` configuration in `api/stocks.js`:
`{ ticker, name }`. -/
structure Company where
  ticker : String
  name : String
deriving DecidableEq, Repr

/-- One industry bucket of the configuration: display name plus the ordered
list of member companies. -/
structure Industry where
  name : String
  companies : List Company
deriving DecidableEq, Repr

/-- The `INDUSTRIES` constant of `api/stocks.js`, as an ordered association
list from industry key to industry data (object-literal insertion order). -/
def INDUSTRIES : List (String × Industry) :=
  [ ("technology",
     ⟨"Technology Sector",
      [ ⟨"AAPL", "Apple Inc."⟩,
        ⟨"MSFT", "Microsoft Corporation"⟩,
        ⟨"GOOGL", "Alphabet Inc. (Google)"⟩,
        ⟨"META", "Meta Platforms Inc."⟩,
        ⟨"AMZN", "Amazon.com Inc."⟩ ]⟩),
    ("pharmaceutical",
     ⟨"Pharmaceutical Sector",
      [ ⟨"PFE", "Pfizer Inc."⟩,
        ⟨"JNJ", "Johnson & Johnson"⟩,
        ⟨"NVS", "Novartis AG"⟩,
        ⟨"BMY", "Bristol Myers Squibb Co."⟩,
        ⟨"MRK", "Merck & Co. Inc."⟩ ]⟩) ]

/-- Outcome of one outbound provider lookup: the parsed JSON payload on
success, or the message of the error thrown by the fetch helper
(network error, non-2xx status, or parse failure). -/
inductive FetchOutcome (α : Type) where
  | ok (payload : α)
  | err (msg : String)
deriving DecidableEq, Repr

/-- Whether the lookup outcome is a thrown error. -/
def FetchOutcome.isErr {α : Type} : FetchOutcome α → Bool
  | .ok _ => false
  | .err _ => true

/-- Whether the lookup outcome is a successful payload. -/
def FetchOutcome.isOk {α : Type} : FetchOutcome α → Bool
  | .ok _ => true
  | .err _ => false

/-- Parsed payload of the stock price endpoint: the optional `price` field
(`none` models a well-formed payload with the field absent or null). -/
structure StockPayload where
  price : Option Int
deriving DecidableEq, Repr

/-- Per-company result object built inside the per-industry `map` of
`api/stocks.js` (lines 110–132). -/
structure StockResult where
  ticker : String
  name : String
  price : Option Int
  timestamp : String
  success : Bool
  error : Option String
deriving DecidableEq, Repr

/-- The per-company closure of `api/stocks.js` lines 110–132: a successful
lookup yields `{ ticker, name, price, timestamp, success: true }`; a thrown
error is caught and yields `success: false` with the error message and a
null price. -/
def fetchCompany (oracle : String → FetchOutcome StockPayload) (now : String)
    (c : Company) : StockResult :=
  match oracle c.ticker with
  | .ok payload => ⟨c.ticker, c.name, payload.price, now, true, none⟩
  | .err msg => ⟨c.ticker, c.name, none, now, false, some msg⟩

/-- Per-industry entry of `industryResults` (`api/stocks.js` lines 142–147):
display name, the settled per-company results, their count and the count of
successful ones. -/
structure IndustryResult where
  name : String
  data : List StockResult
  count : Nat
  successCount : Nat
deriving DecidableEq, Repr

/-- Body of `api/stocks.js` lines 134–147 for one industry: settle all
per-company lookups, filter the successful ones, record counts. -/
def processIndustry (oracle : String → FetchOutcome StockPayload) (now : String)
    (ind : Industry) : IndustryResult :=
  let results := ind.companies.map (fetchCompany oracle now)
  let successfulResults := results.filter (fun r => r.success)
  ⟨ind.name, results, results.length, successfulResults.length⟩

/-- The `industryResults` object accumulated by the loop of `api/stocks.js`
lines 108–148, keyed and ordered as the configuration. -/
def stocksIndustryResults (config : List (String × Industry))
    (oracle : String → FetchOutcome StockPayload) (now : String) :
    List (String × IndustryResult) :=
  config.map (fun p => (p.1, processIndustry oracle now p.2))

/-- All configured companies, flattened across groups in configuration
order. -/
def configCompanies (config : List (String × Industry)) : List Company :=
  (config.map (fun p => p.2.companies)).flatten

/-- All per-company result entries of a grouped response, flattened in group
order. -/
def flattenData (irs : List (String × IndustryResult)) : List StockResult :=
  (irs.map (fun p => p.2.data)).flatten

/-- The outbound calls the stocks handler issues once it reaches the fetch
phase: one price lookup per configured company, in dispatch order. -/
def stocksCalls (config : List (String × Industry)) : List String :=
  (configCompanies config).map (fun c => c.ticker)

/-- JSON body of a stocks-endpoint response, one constructor per `res.json`
(or empty `res.end`) site of `api/stocks.js`, carrying the literal `error`
and `message` strings of that site. -/
inductive StocksBody where
  | empty
  | methodNotAllowed (error message : String)
  | configError (error message : String)
  | serviceUnavailable (error message : String)
      (industries : List (String × IndustryResult))
  | ok (success : Bool) (industries : List (String × IndustryResult))
      (timestamp : String) (totalCompanies totalSuccessful : Nat)
deriving DecidableEq, Repr

/-- The per-entity result groups carried by a stocks response body, when it
carries any (the 503 and 200 bodies both do). -/
def StocksBody.industriesOf : StocksBody → Option (List (String × IndustryResult))
  | .serviceUnavailable _ _ irs => some irs
  | .ok _ irs _ _ _ => some irs
  | _ => none

/-- An HTTP response: status code and JSON body. -/
structure HttpResponse (β : Type) where
  status : Nat
  body : β
deriving DecidableEq, Repr

/-- The handler of `api/stocks.js` (lines 72–176), returning the response
and the list of tickers it issued outbound lookups for.  The configuration
is an explicit parameter; the deployed code applies it to `INDUSTRIES`.
The `API_KEY` check `if (!apiKey)` treats both an unset variable and an
empty string as absent. -/
def stocksHandler (config : List (String × Industry)) (method : String)
    (apiKey : Option String) (oracle : String → FetchOutcome StockPayload)
    (now : String) : HttpResponse StocksBody × List String :=
  if method = "OPTIONS" then
    (⟨200, .empty⟩, [])
  else if method ≠ "GET" then
    (⟨405, .methodNotAllowed "Method not allowed"
        "This endpoint only accepts GET requests"⟩, [])
  else match apiKey with
  | none =>
      (⟨500, .configError "Configuration error"
          "API authentication is not properly configured"⟩, [])
  | some key =>
      if key = "" then
        (⟨500, .configError "Configuration error"
            "API authentication is not properly configured"⟩, [])
      else
        let industryResults := stocksIndustryResults config oracle now
        let totalCompanies := (industryResults.map (fun p => p.2.count)).sum
        let totalSuccessful := (industryResults.map (fun p => p.2.successCount)).sum
        if totalSuccessful = 0 then
          (⟨503, .serviceUnavailable "Service unavailable"
              "Unable to fetch stock data from provider" industryResults⟩,
           stocksCalls config)
        else
          (⟨200, .ok true industryResults now totalCompanies totalSuccessful⟩,
           stocksCalls config)

/-- Parsed payload of the earnings transcript endpoint: JSON `null`, or an
object with its fields (values opaque strings). -/
inductive TranscriptData where
  | null
  | obj (fields : List (String × String))
deriving DecidableEq, Repr

/-- The emptiness check of the earnings handler:
`!transcriptData || Object.keys(transcriptData).length === 0`. -/
def TranscriptData.isEmptyData : TranscriptData → Bool
  | .null => true
  | .obj fields => fields.length = 0

/-- Whether the character list `p` occurs at the start of `s`. -/
def charsStartWith : List Char → List Char → Bool
  | [], _ => true
  | _ :: _, [] => false
  | p :: ps, s :: ss => p == s && charsStartWith ps ss

/-- Whether the character list `pat` occurs contiguously inside `s`. -/
def charsContain (pat : List Char) : List Char → Bool
  | [] => pat.isEmpty
  | s :: ss => charsStartWith pat (s :: ss) || charsContain pat ss

/-- JavaScript `s.includes(pat)` for the strings used here. -/
def strIncludes (s pat : String) : Bool :=
  charsContain pat.toList s.toList

/-- JavaScript `String.prototype.toUpperCase` for ticker symbols. -/
def strToUpper (s : String) : String :=
  s.map Char.toUpper

/-- JSON body of an earnings-endpoint response, one constructor per
`res.json` (or empty `res.end`) site of the earnings handler, carrying each
site's literal `error` / `message` strings and, where present, the echoed
`ticker`, `details` and `data` fields. -/
inductive EarningsBody where
  | empty
  | methodNotAllowed (error message : String)
  | configError (error message : String)
  | badRequest (error message : String)
  | notFound (error message ticker : String)
  | ok (success : Bool) (ticker : String) (data : TranscriptData)
      (timestamp : String)
  | internalError (error message details ticker : String)
deriving DecidableEq, Repr

/-- The `ticker` field echoed by an earnings response body, when the body
has one. -/
def EarningsBody.tickerField : EarningsBody → Option String
  | .notFound _ _ t => some t
  | .ok _ t _ _ => some t
  | .internalError _ _ _ t => some t
  | _ => none

/-- The earnings transcript handler (lines 318–397 of its file), returning
the response and the list of tickers it issued outbound lookups for.  The
`!ticker` check treats a missing and an empty query parameter alike; the
lookup is issued with `ticker.toUpperCase()`; a caught error whose message
contains `"404"` is classified as not-found, any other as internal. -/
def earningsHandler (method : String) (apiKey : Option String)
    (tickerParam : Option String)
    (oracle : String → FetchOutcome TranscriptData) (now : String) :
    HttpResponse EarningsBody × List String :=
  if method = "OPTIONS" then
    (⟨200, .empty⟩, [])
  else if method ≠ "GET" then
    (⟨405, .methodNotAllowed "Method not allowed"
        "This endpoint only accepts GET requests"⟩, [])
  else match apiKey with
  | none =>
      (⟨500, .configError "Configuration error"
          "API authentication is not properly configured"⟩, [])
  | some key =>
      if key = "" then
        (⟨500, .configError "Configuration error"
            "API authentication is not properly configured"⟩, [])
      else match tickerParam with
      | none =>
          (⟨400, .badRequest "Bad request"
              "Ticker parameter is required. Usage: /api/earnings?ticker=MSFT"⟩, [])
      | some ticker =>
          if ticker = "" then
            (⟨400, .badRequest "Bad request"
                "Ticker parameter is required. Usage: /api/earnings?ticker=MSFT"⟩, [])
          else
            match oracle (strToUpper ticker) with
            | .ok transcriptData =>
                if transcriptData.isEmptyData then
                  (⟨404, .notFound "Not found"
                      ("No earnings transcript found for ticker " ++ ticker)
                      (strToUpper ticker)⟩, [strToUpper ticker])
                else
                  (⟨200, .ok true (strToUpper ticker) transcriptData now⟩,
                   [strToUpper ticker])
            | .err msg =>
                if strIncludes msg "404" then
                  (⟨404, .notFound "Not found"
                      ("No earnings transcript found for ticker " ++ ticker)
                      (strToUpper ticker)⟩, [strToUpper ticker])
                else
                  (⟨500, .internalError "Internal server error"
                      "An unexpected error occurred while fetching earnings transcript"
                      msg (strToUpper ticker)⟩, [strToUpper ticker])

/-! ### Helper lemmas about the per-company and per-industry stages -/

theorem fetchCompany_ticker (oracle : String → FetchOutcome StockPayload)
    (now : String) (c : Company) : (fetchCompany oracle now c).ticker = c.ticker := by
  unfold fetchCompany
  cases oracle c.ticker <;> rfl

theorem fetchCompany_name (oracle : String → FetchOutcome StockPayload)
    (now : String) (c : Company) : (fetchCompany oracle now c).name = c.name := by
  unfold fetchCompany
  cases oracle c.ticker <;> rfl

theorem fetchCompany_success_eq (oracle : String → FetchOutcome StockPayload)
    (now : String) (c : Company) :
    (fetchCompany oracle now c).success = (oracle c.ticker).isOk := by
  unfold fetchCompany FetchOutcome.isOk
  cases oracle c.ticker <;> rfl

theorem fetchCompany_error_isSome (oracle : String → FetchOutcome StockPayload)
    (now : String) (c : Company) :
    (fetchCompany oracle now c).error.isSome = (oracle c.ticker).isErr := by
  unfold fetchCompany FetchOutcome.isErr
  cases oracle c.ticker <;> rfl

theorem FetchOutcome.isOk_eq_false_of_isErr {α : Type} (o : FetchOutcome α)
    (h : o.isErr = true) : o.isOk = false := by
  cases o with
  | ok _ => exact absurd h (by simp [FetchOutcome.isErr])
  | err _ => rfl

theorem flattenData_stocksIndustryResults (config : List (String × Industry))
    (oracle : String → FetchOutcome StockPayload) (now : String) :
    flattenData (stocksIndustryResults config oracle now)
      = (configCompanies config).map (fetchCompany oracle now) := by
  induction config with
  | nil => rfl
  | cons hd tl ih =>
    simp [flattenData, stocksIndustryResults, configCompanies, processIndustry,
      List.map_append] at *
    exact ih

theorem sum_successCount_eq (config : List (String × Industry))
    (oracle : String → FetchOutcome StockPayload) (now : String) :
    ((stocksIndustryResults config oracle now).map (fun p => p.2.successCount)).sum
      = (((configCompanies config).map (fetchCompany oracle now)).filter
          (fun r => r.success)).length := by
  induction config with
  | nil => rfl
  | cons hd tl ih =>
    simp [stocksIndustryResults, configCompanies, processIndustry,
      List.map_append, List.filter_append] at *
    exact ih

theorem sum_count_eq (config : List (String × Industry))
    (oracle : String → FetchOutcome StockPayload) (now : String) :
    ((stocksIndustryResults config oracle now).map (fun p => p.2.count)).sum
      = (configCompanies config).length := by
  induction config with
  | nil => rfl
  | cons hd tl ih =>
    simp [stocksIndustryResults, configCompanies, processIndustry,
      List.map_append] at *
    exact ih

/-- Reduction of the stocks handler on a GET request with a non-empty
credential: the response is decided by whether any per-entity lookup
succeeded. -/
theorem stocksHandler_get (config : List (String × Industry))
    (oracle : String → FetchOutcome StockPayload) (now key : String)
    (hk : key ≠ "") :
    stocksHandler config "GET" (some key) oracle now =
      if ((stocksIndustryResults config oracle now).map
            (fun p => p.2.successCount)).sum = 0 then
        (⟨503, .serviceUnavailable "Service unavailable"
            "Unable to fetch stock data from provider"
            (stocksIndustryResults config oracle now)⟩, stocksCalls config)
      else
        (⟨200, .ok true (stocksIndustryResults config oracle now) now
            ((stocksIndustryResults config oracle now).map (fun p => p.2.count)).sum
            ((stocksIndustryResults config oracle now).map
              (fun p => p.2.successCount)).sum⟩, stocksCalls config) := by
  unfold stocksHandler
  simp [hk]

/-- Reduction of the earnings handler on a GET request with a non-empty
credential and a non-empty ticker: the response is decided by the outcome of
the single outbound lookup for the uppercased ticker. -/
theorem earningsHandler_get (key t : String)
    (oracle : String → FetchOutcome TranscriptData) (now : String)
    (hk : key ≠ "") (ht : t ≠ "") :
    earningsHandler "GET" (some key) (some t) oracle now =
      match oracle (strToUpper t) with
      | .ok d =>
          if d.isEmptyData then
            (⟨404, .notFound "Not found"
                ("No earnings transcript found for ticker " ++ t)
                (strToUpper t)⟩, [strToUpper t])
          else
            (⟨200, .ok true (strToUpper t) d now⟩, [strToUpper t])
      | .err msg =>
          if strIncludes msg "404" then
            (⟨404, .notFound "Not found"
                ("No earnings transcript found for ticker " ++ t)
                (strToUpper t)⟩, [strToUpper t])
          else
            (⟨500, .internalError "Internal server error"
                "An unexpected error occurred while fetching earnings transcript"
                msg (strToUpper t)⟩, [strToUpper t]) := by
  unfold earningsHandler
  simp [hk, ht]

/-! ### Claim theorems -/

/-- C1: for every configured entity set (groups in configuration order,
members in configured order) and every assignment of lookup outcomes, the
aggregator's response carries exactly the configured entities, each exactly
once with its ticker and display name, in configuration order; one entity's
failure never removes or blocks the others' entries. -/
theorem claim_C1_entities_preserved (config : List (String × Industry))
    (oracle : String → FetchOutcome StockPayload) (now key : String)
    (hk : key ≠ "") :
    ∃ irs, ((stocksHandler config "GET" (some key) oracle now).1.body).industriesOf
        = some irs ∧
      (flattenData irs).map (fun r => (r.ticker, r.name))
        = (configCompanies config).map (fun c => (c.ticker, c.name)) := by
  refine ⟨stocksIndustryResults config oracle now, ?_, ?_⟩
  · rw [stocksHandler_get config oracle now key hk]
    split <;> rfl
  · rw [flattenData_stocksIndustryResults, List.map_map]
    have h : ((fun r : StockResult => (r.ticker, r.name)) ∘ fetchCompany oracle now)
        = fun c => (c.ticker, c.name) := by
      funext c
      simp [Function.comp, fetchCompany_ticker, fetchCompany_name]
    rw [h]

/-- Witness for C1 at the deployed configuration with an all-failing
provider. -/
theorem claim_C1_witness :
    ∃ irs, ((stocksHandler INDUSTRIES "GET" (some "key")
          (fun _ => .err "down") "t").1.body).industriesOf = some irs ∧
      (flattenData irs).map (fun r => (r.ticker, r.name))
        = (configCompanies INDUSTRIES).map (fun c => (c.ticker, c.name)) :=
  claim_C1_entities_preserved INDUSTRIES (fun _ => .err "down") "t" "key"
    (by decide)

/-- C2: when every per-entity lookup fails, the aggregator answers with the
HTTP 503 provider-unavailable response carrying the per-entity failure
details (every flattened entry failed and carries an error message). -/
theorem claim_C2_all_failed_503 (config : List (String × Industry))
    (oracle : String → FetchOutcome StockPayload) (now key : String)
    (hk : key ≠ "")
    (hall : ∀ c ∈ configCompanies config, (oracle c.ticker).isErr = true) :
    stocksHandler config "GET" (some key) oracle now =
      (⟨503, .serviceUnavailable "Service unavailable"
          "Unable to fetch stock data from provider"
          (stocksIndustryResults config oracle now)⟩, stocksCalls config) ∧
    ∀ r ∈ flattenData (stocksIndustryResults config oracle now),
      r.success = false ∧ r.error.isSome = true := by
  have hz : ((stocksIndustryResults config oracle now).map
      (fun p => p.2.successCount)).sum = 0 := by
    rw [sum_successCount_eq, List.length_eq_zero, List.filter_eq_nil_iff]
    intro r hr
    rw [List.mem_map] at hr
    obtain ⟨c, hc, rfl⟩ := hr
    rw [fetchCompany_success_eq,
      FetchOutcome.isOk_eq_false_of_isErr _ (hall c hc)]
    exact Bool.false_ne_true
  constructor
  · rw [stocksHandler_get config oracle now key hk, if_pos hz]
  · intro r hr
    rw [flattenData_stocksIndustryResults, List.mem_map] at hr
    obtain ⟨c, hc, rfl⟩ := hr
    constructor
    · rw [fetchCompany_success_eq]
      exact FetchOutcome.isOk_eq_false_of_isErr _ (hall c hc)
    · rw [fetchCompany_error_isSome]
      exact hall c hc

/-- Witness for C2 at the deployed configuration with an all-failing
provider. -/
theorem claim_C2_witness :
    stocksHandler INDUSTRIES "GET" (some "key") (fun _ => .err "boom") "t" =
      (⟨503, .serviceUnavailable "Service unavailable"
          "Unable to fetch stock data from provider"
          (stocksIndustryResults INDUSTRIES (fun _ => .err "boom") "t")⟩,
       stocksCalls INDUSTRIES) ∧
    ∀ r ∈ flattenData (stocksIndustryResults INDUSTRIES
        (fun _ => .err "boom") "t"),
      r.success = false ∧ r.error.isSome = true :=
  claim_C2_all_failed_503 INDUSTRIES (fun _ => .err "boom") "t" "key"
    (by decide) (by decide)

/-- C3 counterexample: with zero configured entities (and a GET request with
a configured credential) the aggregator's `totalSuccessful` is 0, so the
code takes the all-failed branch and answers HTTP 503, not the success
response the claim asserts. -/
theorem claim_C3_counterexample :
    (stocksHandler [] "GET" (some "key") (fun _ => .err "down") "t").1.status
        = 503 ∧
    ¬ (stocksHandler [] "GET" (some "key")
        (fun _ => .err "down") "t").1.status = 200 := by
  decide

/-- C3 amended: with zero configured entities the aggregator returns the
HTTP 503 provider-unavailable response with an empty result set, and issues
no outbound calls. -/
theorem claim_C3_empty_config (oracle : String → FetchOutcome StockPayload)
    (now key : String) (hk : key ≠ "") :
    stocksHandler [] "GET" (some key) oracle now =
      (⟨503, .serviceUnavailable "Service unavailable"
          "Unable to fetch stock data from provider" []⟩, []) := by
  rw [stocksHandler_get [] oracle now key hk]
  rfl

/-- Witness for the amended C3. -/
theorem claim_C3_witness :
    stocksHandler [] "GET" (some "key") (fun _ => .err "down") "t" =
      (⟨503, .serviceUnavailable "Service unavailable"
          "Unable to fetch stock data from provider" []⟩, []) :=
  claim_C3_empty_config (fun _ => .err "down") "t" "key" (by decide)

/-- C4: when at least one per-entity lookup succeeds, the aggregator answers
HTTP 200 with `success: true`, and the reported `totalSuccessful` equals the
number of flattened per-entity entries whose success flag is true. -/
theorem claim_C4_partial_success_200 (config : List (String × Industry))
    (oracle : String → FetchOutcome StockPayload) (now key : String)
    (hk : key ≠ "")
    (hsome : ∃ c ∈ configCompanies config, (oracle c.ticker).isOk = true) :
    stocksHandler config "GET" (some key) oracle now =
      (⟨200, .ok true (stocksIndustryResults config oracle now) now
          ((stocksIndustryResults config oracle now).map
            (fun p => p.2.count)).sum
          ((stocksIndustryResults config oracle now).map
            (fun p => p.2.successCount)).sum⟩, stocksCalls config) ∧
    ((stocksIndustryResults config oracle now).map
        (fun p => p.2.successCount)).sum
      = ((flattenData (stocksIndustryResults config oracle now)).filter
          (fun r => r.success)).length := by
  obtain ⟨c, hc, hok⟩ := hsome
  have hmem : fetchCompany oracle now c ∈
      ((configCompanies config).map (fetchCompany oracle now)).filter
        (fun r => r.success) := by
    rw [List.mem_filter]
    exact ⟨List.mem_map_of_mem _ hc, by rw [fetchCompany_success_eq]; exact hok⟩
  have hne : ((stocksIndustryResults config oracle now).map
      (fun p => p.2.successCount)).sum ≠ 0 := by
    rw [sum_successCount_eq]
    exact Nat.pos_iff_ne_zero.mp (List.length_pos.mpr (List.ne_nil_of_mem hmem))
  constructor
  · rw [stocksHandler_get config oracle now key hk, if_neg hne]
  · rw [sum_successCount_eq, flattenData_stocksIndustryResults]

/-- Witness for C4 at the deployed configuration with a provider succeeding
on AAPL only. -/
theorem claim_C4_witness :
    stocksHandler INDUSTRIES "GET" (some "key")
        (fun t => if t = "AAPL" then .ok ⟨some 150⟩ else .err "down") "t" =
      (⟨200, .ok true (stocksIndustryResults INDUSTRIES
          (fun t => if t = "AAPL" then .ok ⟨some 150⟩ else .err "down") "t") "t"
          ((stocksIndustryResults INDUSTRIES
            (fun t => if t = "AAPL" then .ok ⟨some 150⟩ else .err "down") "t").map
            (fun p => p.2.count)).sum
          ((stocksIndustryResults INDUSTRIES
            (fun t => if t = "AAPL" then .ok ⟨some 150⟩ else .err "down") "t").map
            (fun p => p.2.successCount)).sum⟩, stocksCalls INDUSTRIES) ∧
    ((stocksIndustryResults INDUSTRIES
        (fun t => if t = "AAPL" then .ok ⟨some 150⟩ else .err "down") "t").map
        (fun p => p.2.successCount)).sum
      = ((flattenData (stocksIndustryResults INDUSTRIES
          (fun t => if t = "AAPL" then .ok ⟨some 150⟩ else .err "down") "t")).filter
          (fun r => r.success)).length :=
  claim_C4_partial_success_200 INDUSTRIES
    (fun t => if t = "AAPL" then .ok ⟨some 150⟩ else .err "down") "t" "key"
    (by decide) ⟨⟨"AAPL", "Apple Inc."⟩, by decide, by decide⟩

/-- C5: in grouped mode, the top-level `totalCompanies` and
`totalSuccessful` reported by a success response equal the sums, over all
groups of that response, of the group-local `count` and `successCount`. -/
theorem claim_C5_group_sums (config : List (String × Industry))
    (oracle : String → FetchOutcome StockPayload) (now key : String)
    (hk : key ≠ "") (s : Bool) (irs : List (String × IndustryResult))
    (ts : String) (tc tsc : Nat)
    (h : (stocksHandler config "GET" (some key) oracle now).1.body
        = .ok s irs ts tc tsc) :
    tc = (irs.map (fun p => p.2.count)).sum ∧
    tsc = (irs.map (fun p => p.2.successCount)).sum := by
  rw [stocksHandler_get config oracle now key hk] at h
  split at h
  · exact absurd h (by simp)
  · simp only [StocksBody.ok.injEq] at h
    obtain ⟨-, rfl, -, rfl, rfl⟩ := h
    exact ⟨rfl, rfl⟩

/-- Witness for C5 on a one-group, one-company configuration with a
succeeding provider. -/
theorem claim_C5_witness :
    1 = ((stocksIndustryResults [("g", ⟨"G", [⟨"T", "N"⟩]⟩)]
        (fun _ => .ok ⟨some 1⟩) "ts").map (fun p => p.2.count)).sum ∧
    1 = ((stocksIndustryResults [("g", ⟨"G", [⟨"T", "N"⟩]⟩)]
        (fun _ => .ok ⟨some 1⟩) "ts").map (fun p => p.2.successCount)).sum :=
  claim_C5_group_sums [("g", ⟨"G", [⟨"T", "N"⟩]⟩)] (fun _ => .ok ⟨some 1⟩)
    "ts" "k" (by decide) true
    (stocksIndustryResults [("g", ⟨"G", [⟨"T", "N"⟩]⟩)]
      (fun _ => .ok ⟨some 1⟩) "ts") "ts" 1 1 (by decide)

/-- C6: a configured ticker whose lookup returns a well-formed payload with
no price field is recorded in the response as a successful per-entity result
(success flag true) with a null price. -/
theorem claim_C6_empty_payload_success (config : List (String × Industry))
    (oracle : String → FetchOutcome StockPayload) (now key gk : String)
    (ind : Industry) (c : Company) (hk : key ≠ "")
    (hg : (gk, ind) ∈ config) (hc : c ∈ ind.companies)
    (hp : oracle c.ticker = .ok ⟨none⟩) :
    ∃ irs, ((stocksHandler config "GET" (some key) oracle now).1.body).industriesOf
        = some irs ∧
      ∃ ir, (gk, ir) ∈ irs ∧
        (⟨c.ticker, c.name, none, now, true, none⟩ : StockResult) ∈ ir.data := by
  refine ⟨stocksIndustryResults config oracle now, ?_,
    processIndustry oracle now ind, ?_, ?_⟩
  · rw [stocksHandler_get config oracle now key hk]
    split <;> rfl
  · exact List.mem_map_of_mem
      (fun p : String × Industry => (p.1, processIndustry oracle now p.2)) hg
  · have hfc : fetchCompany oracle now c
        = ⟨c.ticker, c.name, none, now, true, none⟩ := by
      unfold fetchCompany
      rw [hp]
    have hdata : (processIndustry oracle now ind).data
        = ind.companies.map (fetchCompany oracle now) := rfl
    rw [hdata, ← hfc]
    exact List.mem_map_of_mem _ hc

/-- Witness for C6 on a one-group configuration whose only lookup returns an
empty payload. -/
theorem claim_C6_witness :
    ∃ irs, ((stocksHandler [("g", ⟨"G", [⟨"T", "N"⟩]⟩)] "GET" (some "k")
          (fun _ => .ok ⟨none⟩) "ts").1.body).industriesOf = some irs ∧
      ∃ ir, ("g", ir) ∈ irs ∧
        (⟨"T", "N", none, "ts", true, none⟩ : StockResult) ∈ ir.data :=
  claim_C6_empty_payload_success [("g", ⟨"G", [⟨"T", "N"⟩]⟩)]
    (fun _ => .ok ⟨none⟩) "ts" "k" "g" ⟨"G", [⟨"T", "N"⟩]⟩ ⟨"T", "N"⟩
    (by decide) (by decide) (by decide) (by decide)

/-- C7: a transcript-endpoint GET request with a missing or empty `ticker`
query parameter gets the HTTP 400 validation error with the usage hint, and
no outbound call is issued. -/
theorem claim_C7_missing_ticker_400 (key : String) (tickerParam : Option String)
    (oracle : String → FetchOutcome TranscriptData) (now : String)
    (hk : key ≠ "") (ht : tickerParam = none ∨ tickerParam = some "") :
    earningsHandler "GET" (some key) tickerParam oracle now =
      (⟨400, .badRequest "Bad request"
          "Ticker parameter is required. Usage: /api/earnings?ticker=MSFT"⟩, []) := by
  unfold earningsHandler
  rcases ht with rfl | rfl <;> simp [hk]

/-- Witness for C7 with the parameter missing. -/
theorem claim_C7_witness :
    earningsHandler "GET" (some "k") none (fun _ => .ok .null) "ts" =
      (⟨400, .badRequest "Bad request"
          "Ticker parameter is required. Usage: /api/earnings?ticker=MSFT"⟩, []) :=
  claim_C7_missing_ticker_400 "k" none (fun _ => .ok .null) "ts"
    (by decide) (Or.inl rfl)

/-- C8 counterexample: the claim quantifies over every request, but an
OPTIONS preflight request with the credential absent is answered with
HTTP 200 (before the credential check), not the claimed HTTP 500. -/
theorem claim_C8_counterexample :
    (stocksHandler INDUSTRIES "OPTIONS" none
        (fun _ => .err "e") "t").1.status = 200 ∧
    ¬ (stocksHandler INDUSTRIES "OPTIONS" none
        (fun _ => .err "e") "t").1.status = 500 := by
  decide

/-- C8 amended: for every GET request to either endpoint, an absent
credential yields HTTP 500 with the fixed configuration-error message and no
outbound call; and with a configured credential, neither endpoint's response
depends on the credential value (any two non-empty credentials give
identical responses), so no response body carries the credential. -/
theorem claim_C8_credential (config : List (String × Industry))
    (oracleS : String → FetchOutcome StockPayload)
    (oracleE : String → FetchOutcome TranscriptData)
    (tq : Option String) (now k₁ k₂ : String)
    (h₁ : k₁ ≠ "") (h₂ : k₂ ≠ "") :
    (stocksHandler config "GET" none oracleS now =
        (⟨500, .configError "Configuration error"
            "API authentication is not properly configured"⟩, []) ∧
     earningsHandler "GET" none tq oracleE now =
        (⟨500, .configError "Configuration error"
            "API authentication is not properly configured"⟩, [])) ∧
    (stocksHandler config "GET" (some k₁) oracleS now
        = stocksHandler config "GET" (some k₂) oracleS now ∧
     earningsHandler "GET" (some k₁) tq oracleE now
        = earningsHandler "GET" (some k₂) tq oracleE now) := by
  refine ⟨⟨?_, ?_⟩, ?_, ?_⟩
  · unfold stocksHandler
    simp
  · unfold earningsHandler
    simp
  · rw [stocksHandler_get config oracleS now k₁ h₁,
      stocksHandler_get config oracleS now k₂ h₂]
  · unfold earningsHandler
    simp [h₁, h₂]

/-- Witness for the amended C8 at the deployed configuration. -/
theorem claim_C8_witness :
    (stocksHandler INDUSTRIES "GET" none (fun _ => .err "e") "t" =
        (⟨500, .configError "Configuration error"
            "API authentication is not properly configured"⟩, []) ∧
     earningsHandler "GET" none (some "msft") (fun _ => .ok .null) "t" =
        (⟨500, .configError "Configuration error"
            "API authentication is not properly configured"⟩, [])) ∧
    (stocksHandler INDUSTRIES "GET" (some "k1") (fun _ => .err "e") "t"
        = stocksHandler INDUSTRIES "GET" (some "k2") (fun _ => .err "e") "t" ∧
     earningsHandler "GET" (some "k1") (some "msft") (fun _ => .ok .null) "t"
        = earningsHandler "GET" (some "k2") (some "msft") (fun _ => .ok .null) "t") :=
  claim_C8_credential INDUSTRIES (fun _ => .err "e") (fun _ => .ok .null)
    (some "msft") "t" "k1" "k2" (by decide) (by decide)

/-- C9: when the provider lookup for a supplied ticker throws, the handler
answers HTTP 404 with `error`/`message`/`ticker` if the error message
carries the not-found signal (contains "404"), and otherwise HTTP 500 with
`error`/`message`/`details`/`ticker`; the response is the same for every
credential value, so it never carries the credential. -/
theorem claim_C9_provider_failure_classified (key t msg : String)
    (oracle : String → FetchOutcome TranscriptData) (now : String)
    (hk : key ≠ "") (ht : t ≠ "")
    (he : oracle (strToUpper t) = .err msg) :
    earningsHandler "GET" (some key) (some t) oracle now =
      if strIncludes msg "404" then
        (⟨404, .notFound "Not found"
            ("No earnings transcript found for ticker " ++ t)
            (strToUpper t)⟩, [strToUpper t])
      else
        (⟨500, .internalError "Internal server error"
            "An unexpected error occurred while fetching earnings transcript"
            msg (strToUpper t)⟩, [strToUpper t]) := by
  rw [earningsHandler_get key t oracle now hk ht, he]

/-- Witness for C9 with a provider error message carrying a 404 status. -/
theorem claim_C9_witness :
    earningsHandler "GET" (some "k") (some "msft")
        (fun _ => .err "API request failed for MSFT: 404 NOT FOUND") "ts" =
      if strIncludes "API request failed for MSFT: 404 NOT FOUND" "404" then
        (⟨404, .notFound "Not found"
            ("No earnings transcript found for ticker " ++ "msft")
            (strToUpper "msft")⟩, [strToUpper "msft"])
      else
        (⟨500, .internalError "Internal server error"
            "An unexpected error occurred while fetching earnings transcript"
            "API request failed for MSFT: 404 NOT FOUND"
            (strToUpper "msft")⟩, [strToUpper "msft"]) :=
  claim_C9_provider_failure_classified "k" "msft"
    "API request failed for MSFT: 404 NOT FOUND"
    (fun _ => .err "API request failed for MSFT: 404 NOT FOUND") "ts"
    (by decide) (by decide) rfl

/-- C10 (implicit): the transcript handler uppercases the supplied ticker
before use: the single outbound lookup is issued for the uppercased ticker,
and every response body that carries a `ticker` field carries the uppercased
ticker, whatever the lookup outcome. -/
theorem claim_C10_ticker_uppercased (key t : String)
    (oracle : String → FetchOutcome TranscriptData) (now : String)
    (hk : key ≠ "") (ht : t ≠ "") :
    (earningsHandler "GET" (some key) (some t) oracle now).2 = [strToUpper t] ∧
    ∀ s, ((earningsHandler "GET" (some key) (some t) oracle now).1.body).tickerField
        = some s → s = strToUpper t := by
  rw [earningsHandler_get key t oracle now hk ht]
  cases oracle (strToUpper t) with
  | ok d =>
    dsimp only
    split <;>
      exact ⟨rfl, fun s hs => by
        simp [EarningsBody.tickerField] at hs
        exact hs.symm⟩
  | err msg =>
    dsimp only
    split <;>
      exact ⟨rfl, fun s hs => by
        simp [EarningsBody.tickerField] at hs
        exact hs.symm⟩

/-- Witness for C10 with a lowercase ticker and a succeeding provider. -/
theorem claim_C10_witness :
    (earningsHandler "GET" (some "k") (some "msft")
        (fun _ => .ok (.obj [("date", "2024-01-30")])) "ts").2
      = [strToUpper "msft"] ∧
    ∀ s, ((earningsHandler "GET" (some "k") (some "msft")
        (fun _ => .ok (.obj [("date", "2024-01-30")])) "ts").1.body).tickerField
        = some s → s = strToUpper "msft" :=
  claim_C10_ticker_uppercased "k" "msft"
    (fun _ => .ok (.obj [("date", "2024-01-30")])) "ts" (by decide) (by decide)

end BIDash
